import Mathlib

/-!
Verification of the Order Workflow Engine of `08.pizza-order-state-machine.py`.

Money values (Python `float` literals such as `9.25` and the tax rate `0.085`)
are embedded as exact rationals (`Rat`); Python `int` is `Int`.  The Python
`OrderState` is a `TypedDict` whose keys are all `NotRequired`, so every field
is embedded as an `Option`; each tool reads fields with `.get(key, default)`,
embedded as `Option.getD`.  Each tool returns a `Command` whose `update`
dictionary is merged into the state; a tool is therefore embedded as a function
from `OrderState` to `OrderState` that overwrites exactly the keys present in
its `update` dictionary and leaves every other field unchanged.
-/

namespace PizzaOrder

/-- The six workflow steps of the `OrderStep` literal type. -/
inductive OrderStep
  | greeting
  | order_collection
  | order_type
  | delivery_address
  | order_summary
  | payment
deriving DecidableEq

/-- The `Literal["pickup", "delivery"]` type of the `order_type` field. -/
inductive OrderType
  | pickup
  | delivery
deriving DecidableEq

/-- One entry of the `order_items` list: a dict with keys
`name`, `size`, `quantity`, `extras`, `price` (built in `add_item`). -/
structure OrderItem where
  name : String
  size : String
  quantity : Int
  extras : List String
  price : Rat
deriving DecidableEq

/-- The `OrderState` TypedDict.  All keys are `NotRequired`, hence `Option`;
`none` means the key is absent from the dict. -/
structure OrderState where
  current_step : Option OrderStep := none
  order_items : Option (List OrderItem) := none
  order_type : Option OrderType := none
  delivery_address : Option String := none
  order_total : Option Rat := none
  payment_confirmed : Option Bool := none
deriving DecidableEq

/-- The state of a fresh session: no key of the TypedDict is set yet. -/
def initial_state : OrderState := {}

/-- `start_order` tool: sets `current_step` to `order_collection`,
`order_items` to `[]` and `order_total` to `0.0`. -/
def start_order (s : OrderState) : OrderState :=
  { s with
    current_step := some .order_collection
    order_items := some []
    order_total := some 0 }

/-- `add_item` tool: appends the new item dict to `order_items` and adds
`price * quantity` to `order_total`.  It performs no validation of any kind
(neither of `current_step` nor of `quantity`). -/
def add_item (item_name : String) (size : String) (quantity : Int)
    (extras : List String) (price : Rat) (s : OrderState) : OrderState :=
  let current_items := s.order_items.getD []
  let current_total := s.order_total.getD 0
  let new_item : OrderItem :=
    { name := item_name, size := size, quantity := quantity
      extras := extras, price := price }
  { s with
    order_items := some (current_items ++ [new_item])
    order_total := some (current_total + price * (quantity : Rat)) }

/-- The one typed failure of the engine: `remove_item` with an out-of-range
1-based index answers the "Invalid item number" message and updates no state
key. -/
inductive OrderError
  | indexOutOfRange
deriving DecidableEq

/-- Python `item["price"] * item["quantity"]` for one item. -/
def itemSubtotal (it : OrderItem) : Rat := it.price * (it.quantity : Rat)

/-- Python `sum(item["price"] * item["quantity"] for item in items)`. -/
def recomputeTotal (items : List OrderItem) : Rat := (items.map itemSubtotal).sum

/-- `remove_item` tool: with `item_index < 1` or `item_index > len(items)` it
returns only the "Invalid item number" message (no state key updated),
embedded as `Except.error .indexOutOfRange`; otherwise it drops the item at
the 1-based position (`current_items[:item_index - 1] + current_items[item_index:]`)
and recomputes `order_total` from scratch over the remaining items. -/
def remove_item (item_index : Int) (s : OrderState) : Except OrderError OrderState :=
  let current_items := s.order_items.getD []
  if item_index < 1 ∨ item_index > (current_items.length : Int) then
    .error .indexOutOfRange
  else
    let k := (item_index - 1).toNat
    let updated_items := current_items.take k ++ current_items.drop (k + 1)
    .ok { s with
      order_items := some updated_items
      order_total := some (recomputeTotal updated_items) }

/-- `finish_order_collection` tool: sets `current_step` to `order_type`. -/
def finish_order_collection (s : OrderState) : OrderState :=
  { s with current_step := some .order_type }

/-- `set_order_type` tool: records the order type; the next step is
`delivery_address` if the type is `delivery`, else `order_summary`. -/
def set_order_type (t : OrderType) (s : OrderState) : OrderState :=
  let next_step : OrderStep :=
    if t = .delivery then .delivery_address else .order_summary
  { s with order_type := some t, current_step := some next_step }

/-- `set_delivery_address` tool: records the address and sets `current_step`
to `order_summary`.  The address is not validated. -/
def set_delivery_address (address : String) (s : OrderState) : OrderState :=
  { s with delivery_address := some address, current_step := some .order_summary }

/-- `confirm_order` tool: unconditionally sets `current_step` to `payment`
(no emptiness check on `order_items`, no step check). -/
def confirm_order (s : OrderState) : OrderState :=
  { s with current_step := some .payment }

/-- `add_more_items` tool: sets `current_step` back to `order_collection`. -/
def add_more_items (s : OrderState) : OrderState :=
  { s with current_step := some .order_collection }

/-- Result of `process_payment`: the new state plus the three money amounts
the tool reports in its `ToolMessage` (subtotal, tax, total). -/
structure PaymentResult where
  state : OrderState
  subtotal : Rat
  tax : Rat
  final_total : Rat
deriving DecidableEq

/-- `process_payment` tool: reads `order_total` (default `0.0`), computes
`tax = order_total * 0.085` and `final_total = order_total + tax`, and updates
only `payment_confirmed := true` (in particular `current_step` is untouched). -/
def process_payment (payment_method : String) (s : OrderState) : PaymentResult :=
  let order_total := s.order_total.getD 0
  let tax := order_total * (85 / 1000 : Rat)
  let final_total := order_total + tax
  { state := { s with payment_confirmed := some true }
    subtotal := order_total
    tax := tax
    final_total := final_total }

/-- `go_back_to_order` tool: sets `current_step` to `order_collection` and
updates no other key. -/
def go_back_to_order (s : OrderState) : OrderState :=
  { s with current_step := some .order_collection }

/-- Names of the ten tools, as listed in `STEP_CONFIG` and `all_tools`. -/
inductive OpName
  | start_order
  | add_item
  | remove_item
  | finish_order_collection
  | set_order_type
  | set_delivery_address
  | confirm_order
  | add_more_items
  | process_payment
  | go_back_to_order
deriving DecidableEq

/-- A piece of a prompt template: literal text, or one of the four
`str.format` placeholders that `apply_step_config` fills from state
(`order_items`, `order_total`, `order_type`, `delivery_address`). -/
inductive PromptPart
  | lit (text : String)
  | order_items
  | order_total
  | order_type
  | delivery_address
deriving DecidableEq

/-- A piece of a formatted prompt: literal text, or a placeholder resolved to
the value taken from the `OrderState` (the Python code renders these values
into the string; the embedding keeps the values themselves). -/
inductive FilledPart
  | lit (text : String)
  | order_items (items : List OrderItem)
  | order_total (total : Rat)
  | order_type (t : String)
  | delivery_address (a : String)
deriving DecidableEq

/-- The `MENU` constant (shared by the greeting and order-collection
prompts). -/
def MENU : String := "
🍕 **PIZZAS** (Large / Medium / Small):
   • Pepperoni Pizza: $12.95 / $10.00 / $7.00
   • Cheese Pizza: $10.95 / $9.25 / $6.50
   • Eggplant Pizza: $11.95 / $9.75 / $6.75

🍟 **SIDES**:
   • Fries: $4.50 (Large) / $3.50 (Regular)
   • Greek Salad: $7.25

🧀 **TOPPINGS** (Extra):
   • Extra Cheese: $2.00
   • Mushrooms: $1.50
   • Sausage: $3.00
   • Canadian Bacon: $3.50
   • AI Sauce: $1.50
   • Peppers: $1.00

🥤 **DRINKS** (Large / Medium / Small):
   • Coke: $3.00 / $2.00 / $1.00
   • Sprite: $3.00 / $2.00 / $1.00
   • Bottled Water: $5.00
"

/-- `GREETING_PROMPT`: an f-string with `MENU` inlined; after evaluation it
contains no `format` placeholder, so the template is a single literal. -/
def GREETING_PROMPT : List PromptPart :=
  [.lit ("You are OrderBot 🍕, a friendly automated ordering assistant for Mario\u0027s Pizza.

CURRENT STEP: Greeting

Your job is to:
1. Give a warm, friendly greeting
2. Let the customer know you\u0027re here to help them order
3. Show them the menu
4. Use the start_order tool when they\u0027re ready to order

Be conversational, friendly, and upbeat! Use emojis occasionally.

Here\u0027s the menu to share:
" ++ MENU ++ "

After greeting and showing the menu, wait for the customer to indicate they want to order, then use start_order.")]

/-- `ORDER_COLLECTION_PROMPT`: keeps `order_items` and `order_total` as
`format` placeholders (escaped braces in the source f-string). -/
def ORDER_COLLECTION_PROMPT : List PromptPart :=
  [.lit "You are OrderBot 🍕, a friendly pizza ordering assistant.

CURRENT STEP: Order Collection
CURRENT ORDER: ",
   .order_items,
   .lit "
CURRENT TOTAL: $",
   .order_total,
   .lit ("

At this step, you need to:
1. Help the customer choose items from the menu
2. For pizzas: ALWAYS clarify the size (small, medium, large)
3. For pizzas: Ask about extra toppings
4. For fries: Ask if they want large or regular
5. For drinks (except bottled water): Ask for size (small, medium, large)
6. Use add_item to add each item with correct price
7. When they\u0027re done ordering, use finish_order_collection

PRICING REFERENCE:
" ++ MENU ++ "

IMPORTANT:
- Calculate prices correctly including extras
- Be conversational and friendly
- Confirm each item as you add it
- If customer says they\u0027re done ordering or that\u0027s all, use finish_order_collection")]

/-- `ORDER_TYPE_PROMPT`. -/
def ORDER_TYPE_PROMPT : List PromptPart :=
  [.lit "You are OrderBot 🍕, a friendly pizza ordering assistant.

CURRENT STEP: Pickup or Delivery
CURRENT ORDER: ",
   .order_items,
   .lit "
ORDER TOTAL: $",
   .order_total,
   .lit "

At this step, you need to:
1. Ask if this is for pickup or delivery
2. Use set_order_type to record their answer

Keep it brief and friendly!"]

/-- `DELIVERY_ADDRESS_PROMPT`: contains no placeholder. -/
def DELIVERY_ADDRESS_PROMPT : List PromptPart :=
  [.lit "You are OrderBot 🍕, a friendly pizza ordering assistant.

CURRENT STEP: Delivery Address
ORDER TYPE: Delivery 🚗

At this step, you need to:
1. Ask for their complete delivery address
2. Get street address, city, and any apartment/unit number
3. Use set_delivery_address to record the address

Make sure to get a complete, deliverable address!"]

/-- `ORDER_SUMMARY_PROMPT`. -/
def ORDER_SUMMARY_PROMPT : List PromptPart :=
  [.lit "You are OrderBot 🍕, a friendly pizza ordering assistant.

CURRENT STEP: Order Summary & Final Check
CURRENT ORDER: ",
   .order_items,
   .lit "
ORDER TOTAL: $",
   .order_total,
   .lit "
ORDER TYPE: ",
   .order_type,
   .lit "
DELIVERY ADDRESS: ",
   .delivery_address,
   .lit "

At this step, you need to:
1. Summarize the complete order with all items and prices
2. Show the subtotal (tax will be added at payment)
3. Confirm the order type (pickup/delivery) and address if delivery
4. Ask if they\u0027d like to add anything else
5. If they want to add more → use add_more_items
6. If order is complete → use confirm_order

Format the order summary nicely and make it easy to read!"]

/-- `PAYMENT_PROMPT`. -/
def PAYMENT_PROMPT : List PromptPart :=
  [.lit "You are OrderBot 🍕, a friendly pizza ordering assistant.

CURRENT STEP: Payment 💳
CURRENT ORDER: ",
   .order_items,
   .lit "
ORDER TOTAL: $",
   .order_total,
   .lit "
ORDER TYPE: ",
   .order_type,
   .lit "
DELIVERY ADDRESS: ",
   .delivery_address,
   .lit "

At this step, you need to:
1. Show the final total with tax (8.5%)
2. Ask how they\u0027d like to pay (credit card, debit, cash)
3. Use process_payment to complete the order

Note: If they want to change their order, use go_back_to_order.

After payment, thank them and:
- For pickup: Tell them the order will be ready in 15-20 minutes
- For delivery: Tell them delivery will be 30-45 minutes"]

/-- One entry of `STEP_CONFIG`: prompt template, tool list, required fields. -/
structure StepConfig where
  prompt : List PromptPart
  tools : List OpName
  requires : List String
deriving DecidableEq

/-- The `STEP_CONFIG` table, keyed by step. -/
def STEP_CONFIG : OrderStep → StepConfig
  | .greeting =>
      { prompt := GREETING_PROMPT
        tools := [.start_order]
        requires := [] }
  | .order_collection =>
      { prompt := ORDER_COLLECTION_PROMPT
        tools := [.add_item, .remove_item, .finish_order_collection]
        requires := [] }
  | .order_type =>
      { prompt := ORDER_TYPE_PROMPT
        tools := [.set_order_type, .go_back_to_order]
        requires := ["order_items"] }
  | .delivery_address =>
      { prompt := DELIVERY_ADDRESS_PROMPT
        tools := [.set_delivery_address, .go_back_to_order]
        requires := ["order_type"] }
  | .order_summary =>
      { prompt := ORDER_SUMMARY_PROMPT
        tools := [.confirm_order, .add_more_items]
        requires := ["order_items", "order_type"] }
  | .payment =>
      { prompt := PAYMENT_PROMPT
        tools := [.process_payment, .go_back_to_order]
        requires := ["order_items", "order_type"] }

/-- The string the `order_type` format value renders to:
`request.state.get("order_type", "not set")`. -/
def orderTypeText : Option OrderType → String
  | some .pickup => "pickup"
  | some .delivery => "delivery"
  | none => "not set"

/-- One `format` placeholder resolved against a state, with the defaults of
the `format_values` dict in `apply_step_config`: `[]` for `order_items`,
`0.0` for `order_total`, `"not set"` for `order_type`, `"N/A"` for
`delivery_address`. -/
def fillPart (s : OrderState) : PromptPart → FilledPart
  | .lit t => .lit t
  | .order_items => .order_items (s.order_items.getD [])
  | .order_total => .order_total (s.order_total.getD 0)
  | .order_type => .order_type (orderTypeText s.order_type)
  | .delivery_address => .delivery_address (s.delivery_address.getD "N/A")

/-- The part of a `ModelRequest` the middleware observes and overrides:
the agent state plus the `system_prompt` and `tools` it injects. -/
structure ModelRequest where
  state : OrderState
  system_prompt : List FilledPart
  tools : List OpName
deriving DecidableEq

/-- The `apply_step_config` middleware: reads `current_step` (default
`greeting`), looks up `STEP_CONFIG`, formats the step prompt with the state
values, and overrides the request with that prompt and the step tool list.
`request.override` builds a new request; the agent state is not touched. -/
def apply_step_config (request : ModelRequest) : ModelRequest :=
  let current_step := request.state.current_step.getD .greeting
  let step_config := STEP_CONFIG current_step
  { request with
    system_prompt := step_config.prompt.map (fillPart request.state)
    tools := step_config.tools }

/-- One call of the order-collection phase: `add_item` or `remove_item`,
with the arguments the agent supplies. -/
inductive CollectionOp
  | add (item_name : String) (size : String) (quantity : Int)
      (extras : List String) (price : Rat)
  | remove (item_index : Int)

/-- Apply one collection call to the state.  An out-of-range `remove_item`
updates no state key, so the state is returned unchanged. -/
def applyCollectionOp (s : OrderState) : CollectionOp → OrderState
  | .add item_name size quantity extras price =>
      add_item item_name size quantity extras price s
  | .remove item_index =>
      match remove_item item_index s with
      | .ok s1 => s1
      | .error _ => s

/-- A call is valid in the sense of the specification: `add_item` needs
`quantity ≥ 1`, `remove_item` needs a 1-based index into the item list. -/
def validCollectionOp (s : OrderState) : CollectionOp → Prop
  | .add _ _ quantity _ _ => 1 ≤ quantity
  | .remove item_index =>
      1 ≤ item_index ∧ item_index ≤ ((s.order_items.getD []).length : Int)

instance (s : OrderState) : (op : CollectionOp) → Decidable (validCollectionOp s op)
  | .add _ _ quantity _ _ => inferInstanceAs (Decidable (1 ≤ quantity))
  | .remove item_index =>
      inferInstanceAs (Decidable (1 ≤ item_index ∧ item_index ≤ _))

/-- Every call of the sequence is valid in the state it is applied to. -/
def validTrace : OrderState → List CollectionOp → Prop
  | _, [] => True
  | s, op :: rest => validCollectionOp s op ∧ validTrace (applyCollectionOp s op) rest

def validTraceDec : (s : OrderState) → (l : List CollectionOp) → Decidable (validTrace s l)
  | _, [] => .isTrue trivial
  | s, op :: rest =>
      have h2 : Decidable (validTrace (applyCollectionOp s op) rest) :=
        validTraceDec (applyCollectionOp s op) rest
      inferInstanceAs (Decidable (validCollectionOp s op ∧ _))

attribute [instance] validTraceDec

/-- The spec invariant: the running `order_total` equals the sum of
`price * quantity` over the current items. -/
def subtotalInvariant (s : OrderState) : Prop :=
  s.order_total.getD 0 = recomputeTotal (s.order_items.getD [])

instance (s : OrderState) : Decidable (subtotalInvariant s) :=
  inferInstanceAs (Decidable (_ = _))

/-- Rounding a rational amount of dollars to a whole number of cents
(round to nearest). -/
def roundCents (q : Rat) : Int := round (q * 100)

/-- The state after the acceptance-scenario prefix
`start_order(); add_item("Cheese Pizza","medium",1,[],9.25);
finish_order_collection(); set_order_type("pickup"); confirm_order()`. -/
def scenarioConfirmed : OrderState :=
  confirm_order
    (set_order_type .pickup
      (finish_order_collection
        (add_item "Cheese Pizza" "medium" 1 [] (9.25 : Rat)
          (start_order initial_state))))

/-- The result of the final scenario call `process_payment("cash")`. -/
def scenarioResult : PaymentResult :=
  process_payment "cash" scenarioConfirmed

/-- C1 counterexample: `add_item` invoked at step `greeting` does not fail;
it appends the item (mutating the state), and `confirm_order` on a state at
`order_summary` with an empty item list does not fail either: it moves
`current_step` to `payment`. -/
theorem add_item_at_greeting_counterexample :
    (add_item "Cheese Pizza" "medium" 1 [] (9.25 : Rat)
        { current_step := some .greeting }).order_items
      = some [{ name := "Cheese Pizza", size := "medium", quantity := 1,
                extras := [], price := (9.25 : Rat) }] ∧
    ({ current_step := some .greeting } : OrderState).order_items = none ∧
    add_item "Cheese Pizza" "medium" 1 [] (9.25 : Rat)
        { current_step := some .greeting }
      ≠ ({ current_step := some .greeting } : OrderState) ∧
    (confirm_order
        { current_step := some .order_summary,
          order_items := some [] }).current_step = some .payment ∧
    ({ current_step := some .order_summary,
        order_items := some [] } : OrderState).order_items = some [] := by
  refine ⟨rfl, rfl, ?_, rfl, rfl⟩
  intro hEq
  simpa [add_item] using congrArg OrderState.order_items hEq

/-- C1 amended: the operations themselves perform no step check and no
emptiness check; each of the ten applies its update unconditionally,
whatever `current_step` holds (step legality is enforced only by the
middleware narrowing the exposed tool list).  Every conjunct below is a
full-state equation over an arbitrary state with no hypothesis on
`current_step`: `start_order` resets, `add_item` appends, `remove_item`
branches only on the index bound, the step movers set their step, and
`process_payment` sets only the payment flag.  In particular `add_item` at
`greeting` mutates the state and `confirm_order` reaches `payment` even
with empty items or at the wrong step. -/
theorem ops_apply_unconditionally (s : OrderState)
    (item_name size address payment_method : String)
    (quantity item_index : Int) (extras : List String) (price : Rat)
    (t : OrderType) :
    start_order s
      = { s with current_step := some .order_collection,
                 order_items := some [], order_total := some 0 } ∧
    add_item item_name size quantity extras price s
      = { s with
          order_items := some (s.order_items.getD []
            ++ [{ name := item_name, size := size, quantity := quantity,
                  extras := extras, price := price }])
          order_total := some (s.order_total.getD 0 + price * (quantity : Rat)) } ∧
    remove_item item_index s
      = (if item_index < 1 ∨
            item_index > ((s.order_items.getD []).length : Int) then
          .error .indexOutOfRange
        else
          .ok { s with
            order_items := some ((s.order_items.getD []).take (item_index - 1).toNat
              ++ (s.order_items.getD []).drop ((item_index - 1).toNat + 1))
            order_total := some (recomputeTotal
              ((s.order_items.getD []).take (item_index - 1).toNat
                ++ (s.order_items.getD []).drop ((item_index - 1).toNat + 1))) }) ∧
    finish_order_collection s = { s with current_step := some .order_type } ∧
    set_order_type t s
      = { s with order_type := some t,
                 current_step := some (if t = .delivery then .delivery_address
                   else .order_summary) } ∧
    set_delivery_address address s
      = { s with delivery_address := some address,
                 current_step := some .order_summary } ∧
    confirm_order s = { s with current_step := some .payment } ∧
    add_more_items s = { s with current_step := some .order_collection } ∧
    (process_payment payment_method s).state
      = { s with payment_confirmed := some true } ∧
    go_back_to_order s = { s with current_step := some .order_collection } :=
  ⟨rfl, rfl, rfl, rfl, rfl, rfl, rfl, rfl, rfl, rfl⟩

/-- C5: at step `order_type`, `set_order_type pickup` records the type and
moves to `order_summary`; `set_order_type delivery` records the type and
moves to `delivery_address`; the destinations are never swapped. -/
theorem set_order_type_destinations (s : OrderState)
    (h : s.current_step = some .order_type) :
    ((set_order_type .pickup s).order_type = some .pickup ∧
      (set_order_type .pickup s).current_step = some .order_summary) ∧
    ((set_order_type .delivery s).order_type = some .delivery ∧
      (set_order_type .delivery s).current_step = some .delivery_address) :=
  ⟨⟨rfl, rfl⟩, rfl, rfl⟩

/-- C5 witness: the two destinations at a concrete `order_type` state. -/
theorem set_order_type_destinations_witness :
    ({ current_step := some .order_type } : OrderState).current_step
        = some OrderStep.order_type ∧
    (((set_order_type .pickup { current_step := some .order_type }).order_type
          = some .pickup ∧
      (set_order_type .pickup { current_step := some .order_type }).current_step
          = some .order_summary) ∧
     ((set_order_type .delivery { current_step := some .order_type }).order_type
          = some .delivery ∧
      (set_order_type .delivery { current_step := some .order_type }).current_step
          = some .delivery_address)) :=
  ⟨rfl, set_order_type_destinations { current_step := some .order_type } rfl⟩

/-- C6: at step `payment`, `go_back_to_order` sets `current_step` to
`order_collection` and leaves every other field (items, total, type,
address, payment flag) exactly as it was. -/
theorem go_back_to_order_frame (s : OrderState)
    (h : s.current_step = some .payment) :
    (go_back_to_order s).current_step = some .order_collection ∧
    (go_back_to_order s).order_items = s.order_items ∧
    (go_back_to_order s).order_total = s.order_total ∧
    (go_back_to_order s).order_type = s.order_type ∧
    (go_back_to_order s).delivery_address = s.delivery_address ∧
    (go_back_to_order s).payment_confirmed = s.payment_confirmed :=
  ⟨rfl, rfl, rfl, rfl, rfl, rfl⟩

/-- A concrete paid state at step `payment` (for the C6 witness). -/
def paidState : OrderState :=
  { current_step := some .payment
    order_items := some [{ name := "Greek Salad", size := "regular",
                           quantity := 1, extras := [], price := (7.25 : Rat) }]
    order_total := some (7.25 : Rat)
    order_type := some .pickup
    payment_confirmed := some true }

/-- C6 witness: going back from a concrete paid state keeps the stale
`payment_confirmed = true`. -/
theorem go_back_to_order_frame_witness :
    paidState.current_step = some OrderStep.payment ∧
    ((go_back_to_order paidState).current_step = some .order_collection ∧
     (go_back_to_order paidState).order_items = paidState.order_items ∧
     (go_back_to_order paidState).order_total = paidState.order_total ∧
     (go_back_to_order paidState).order_type = paidState.order_type ∧
     (go_back_to_order paidState).delivery_address = paidState.delivery_address ∧
     (go_back_to_order paidState).payment_confirmed = paidState.payment_confirmed) ∧
    paidState.payment_confirmed = some true :=
  ⟨rfl, go_back_to_order_frame paidState rfl, rfl⟩

/-- C8 counterexample: `add_item` with `quantity = 0` at step
`order_collection` does not fail: the item is appended (the items list
changes), and the total gains `price * 0`. -/
theorem add_item_zero_quantity_counterexample :
    (add_item "Coke" "small" 0 [] (3 : Rat)
        { current_step := some .order_collection, order_items := some [],
          order_total := some 0 }).order_items
      = some [{ name := "Coke", size := "small", quantity := 0,
                extras := [], price := (3 : Rat) }] ∧
    ({ current_step := some .order_collection, order_items := some [],
        order_total := some 0 } : OrderState).order_items = some [] ∧
    (add_item "Coke" "small" 0 [] (3 : Rat)
        { current_step := some .order_collection, order_items := some [],
          order_total := some 0 }).order_total = some (0 : Rat) := by
  refine ⟨rfl, rfl, ?_⟩
  simp [add_item]

/-- C8 amended: `add_item` performs no quantity validation: at step
`order_collection`, for every quantity (including zero and negative values)
it appends the item and adds `price * quantity` to the total. -/
theorem add_item_no_quantity_validation (s : OrderState)
    (h : s.current_step = some .order_collection)
    (item_name size : String) (quantity : Int) (extras : List String)
    (price : Rat) :
    (add_item item_name size quantity extras price s).order_items
      = some (s.order_items.getD []
          ++ [{ name := item_name, size := size, quantity := quantity,
                extras := extras, price := price }]) ∧
    (add_item item_name size quantity extras price s).order_total
      = some (s.order_total.getD 0 + price * (quantity : Rat)) :=
  ⟨rfl, rfl⟩

/-- A concrete empty order at step `order_collection` (for the C8 witness). -/
def collectionState : OrderState :=
  { current_step := some .order_collection
    order_items := some []
    order_total := some 0 }

/-- C8 witness: the amended behavior evaluated at `quantity = 0`. -/
theorem add_item_no_quantity_validation_witness :
    collectionState.current_step = some OrderStep.order_collection ∧
    ((add_item "Coke" "small" 0 [] (3 : Rat) collectionState).order_items
        = some (collectionState.order_items.getD []
            ++ [{ name := "Coke", size := "small", quantity := 0,
                  extras := [], price := (3 : Rat) }]) ∧
     (add_item "Coke" "small" 0 [] (3 : Rat) collectionState).order_total
        = some (collectionState.order_total.getD 0 + 3 * ((0 : Int) : Rat))) :=
  ⟨rfl, add_item_no_quantity_validation collectionState rfl "Coke" "small" 0 [] 3⟩

/-- C9: the middleware is a pure projection of the step table: it leaves the
agent state untouched and exposes exactly the `STEP_CONFIG` entry of the
current step: its tool list, and its prompt template with each placeholder
filled from the state (items, total with default `0.0`, order type with
default `"not set"`, delivery address with default `"N/A"`). -/
theorem apply_step_config_pure_projection (request : ModelRequest) :
    (apply_step_config request).state = request.state ∧
    (apply_step_config request).tools
      = (STEP_CONFIG (request.state.current_step.getD .greeting)).tools ∧
    (apply_step_config request).system_prompt
      = (STEP_CONFIG (request.state.current_step.getD .greeting)).prompt.map
          (fillPart request.state) ∧
    fillPart request.state .order_items
      = .order_items (request.state.order_items.getD []) ∧
    fillPart request.state .order_total
      = .order_total (request.state.order_total.getD 0) ∧
    fillPart request.state .order_type
      = .order_type (orderTypeText request.state.order_type) ∧
    fillPart request.state .delivery_address
      = .delivery_address (request.state.delivery_address.getD "N/A") :=
  ⟨rfl, rfl, rfl, rfl, rfl, rfl, rfl⟩

/-- C10: when `order_total` is unset or zero, `process_payment` still
succeeds: subtotal is treated as `0.0`, tax and final total are `0`, and
`payment_confirmed` is set. -/
theorem process_payment_empty_order (s : OrderState) (payment_method : String)
    (h : s.order_total = none ∨ s.order_total = some 0) :
    (process_payment payment_method s).subtotal = 0 ∧
    (process_payment payment_method s).tax = 0 ∧
    (process_payment payment_method s).final_total = 0 ∧
    (process_payment payment_method s).state.payment_confirmed = some true := by
  have hs : s.order_total.getD 0 = 0 := by rcases h with h | h <;> simp [h]
  refine ⟨hs, ?_, ?_, rfl⟩
  · show s.order_total.getD 0 * (85 / 1000 : Rat) = 0
    rw [hs]; ring
  · show s.order_total.getD 0 + s.order_total.getD 0 * (85 / 1000 : Rat) = 0
    rw [hs]; ring

/-- C10 witness: paying on the fresh session state (no order ever started). -/
theorem process_payment_empty_order_witness :
    (initial_state.order_total = none ∨ initial_state.order_total = some 0) ∧
    ((process_payment "cash" initial_state).subtotal = 0 ∧
     (process_payment "cash" initial_state).tax = 0 ∧
     (process_payment "cash" initial_state).final_total = 0 ∧
     (process_payment "cash" initial_state).state.payment_confirmed = some true) :=
  ⟨Or.inl rfl, process_payment_empty_order initial_state "cash" (Or.inl rfl)⟩

/-- C3: at step `payment`, `process_payment` computes
`tax = order_total * 0.085` and `final_total = order_total + tax`, sets
`payment_confirmed`, and leaves `current_step` at `payment`. -/
theorem process_payment_tax_computation (s : OrderState)
    (payment_method : String) (h : s.current_step = some .payment) :
    (process_payment payment_method s).tax
      = s.order_total.getD 0 * (85 / 1000 : Rat) ∧
    (process_payment payment_method s).final_total
      = s.order_total.getD 0 + s.order_total.getD 0 * (85 / 1000 : Rat) ∧
    (process_payment payment_method s).state.payment_confirmed = some true ∧
    (process_payment payment_method s).state.current_step = some .payment :=
  ⟨rfl, rfl, rfl, h⟩

/-- A concrete $10.00 order at step `payment` (for the C3 witness). -/
def tenDollarState : OrderState :=
  { current_step := some .payment
    order_items := some [{ name := "Pepperoni Pizza", size := "medium",
                           quantity := 1, extras := [], price := (10 : Rat) }]
    order_total := some (10 : Rat)
    order_type := some .pickup }

/-- C3 witness: subtotal `10.00` gives tax `0.85` and final total `10.85`. -/
theorem process_payment_tax_computation_witness :
    tenDollarState.current_step = some OrderStep.payment ∧
    (process_payment "credit card" tenDollarState).tax = (0.85 : Rat) ∧
    (process_payment "credit card" tenDollarState).final_total = (10.85 : Rat) ∧
    (process_payment "credit card" tenDollarState).state.payment_confirmed
        = some true ∧
    (process_payment "credit card" tenDollarState).state.current_step
        = some OrderStep.payment := by
  have h := process_payment_tax_computation tenDollarState "credit card" rfl
  refine ⟨rfl, ?_, ?_, h.2.2.1, h.2.2.2⟩
  · rw [h.1]; norm_num [tenDollarState]
  · rw [h.2.1]; norm_num [tenDollarState]

/-- C4: at step `order_collection`, `remove_item i` with `1 ≤ i ≤ len(items)`
drops exactly the item at 1-based position `i`, keeps the others in order,
and recomputes the total from scratch over the remaining items; any other
`i` yields the index failure and the state is unchanged. -/
theorem remove_item_index_handling (s : OrderState)
    (h : s.current_step = some .order_collection) (item_index : Int) :
    (1 ≤ item_index ∧ item_index ≤ ((s.order_items.getD []).length : Int) →
      remove_item item_index s
        = .ok { s with
            order_items := some ((s.order_items.getD []).take (item_index - 1).toNat
              ++ (s.order_items.getD []).drop ((item_index - 1).toNat + 1))
            order_total := some (recomputeTotal
              ((s.order_items.getD []).take (item_index - 1).toNat
                ++ (s.order_items.getD []).drop ((item_index - 1).toNat + 1))) }) ∧
    ((item_index < 1 ∨ ((s.order_items.getD []).length : Int) < item_index) →
      remove_item item_index s = .error .indexOutOfRange ∧
      applyCollectionOp s (.remove item_index) = s) := by
  constructor
  · rintro ⟨h1, h2⟩
    have hc : ¬(item_index < 1 ∨
        item_index > ((s.order_items.getD []).length : Int)) := by omega
    simp [remove_item, hc]
  · intro hcase
    have hc : item_index < 1 ∨
        item_index > ((s.order_items.getD []).length : Int) := by
      rcases hcase with h1 | h1
      · exact Or.inl h1
      · exact Or.inr h1
    refine ⟨?_, ?_⟩
    · simp [remove_item, hc]
    · simp [applyCollectionOp, remove_item, hc]

/-- A concrete two-item order at step `order_collection` (for the C4
witness). -/
def twoItemState : OrderState :=
  { current_step := some .order_collection
    order_items := some
      [{ name := "Coke", size := "small", quantity := 1, extras := [],
         price := (1 : Rat) },
       { name := "Fries", size := "regular", quantity := 1, extras := [],
         price := (3.5 : Rat) }]
    order_total := some (4.5 : Rat) }

/-- C4 witness: `remove_item 5` on the two-item order fails with the index
error, and `remove_item 1` drops the first item and recomputes the total. -/
theorem remove_item_index_handling_witness :
    twoItemState.current_step = some OrderStep.order_collection ∧
    remove_item 5 twoItemState = .error .indexOutOfRange ∧
    applyCollectionOp twoItemState (.remove 5) = twoItemState ∧
    remove_item 1 twoItemState
      = .ok { twoItemState with
          order_items := some ((twoItemState.order_items.getD []).take ((1 : Int) - 1).toNat
            ++ (twoItemState.order_items.getD []).drop (((1 : Int) - 1).toNat + 1))
          order_total := some (recomputeTotal
            ((twoItemState.order_items.getD []).take ((1 : Int) - 1).toNat
              ++ (twoItemState.order_items.getD []).drop (((1 : Int) - 1).toNat + 1))) } := by
  have hout := (remove_item_index_handling twoItemState rfl 5).2 (by decide)
  have hin := (remove_item_index_handling twoItemState rfl 1).1 (by decide)
  exact ⟨rfl, hout.1, hout.2, hin⟩

/-- The sum over items gained by appending one item. -/
lemma recomputeTotal_append (l : List OrderItem) (x : OrderItem) :
    recomputeTotal (l ++ [x]) = recomputeTotal l + itemSubtotal x := by
  simp [recomputeTotal]

/-- One `add_item` or `remove_item` call keeps the running total equal to
the recomputed sum over the items. -/
lemma subtotalInvariant_applyCollectionOp (s : OrderState) (op : CollectionOp)
    (h : subtotalInvariant s) : subtotalInvariant (applyCollectionOp s op) := by
  cases op with
  | add item_name size quantity extras price =>
      unfold subtotalInvariant at h ⊢
      simp only [applyCollectionOp, add_item, Option.getD_some]
      rw [recomputeTotal_append, ← h, itemSubtotal]
  | remove item_index =>
      simp only [applyCollectionOp]
      rcases hrem : remove_item item_index s with e | s1
      · simpa [hrem] using h
      · simp only [remove_item] at hrem
        split at hrem
        · cases hrem
        · cases hrem
          unfold subtotalInvariant
          simp

/-- The invariant is preserved along any fold of collection calls. -/
lemma subtotalInvariant_foldl (ops : List CollectionOp) :
    ∀ s : OrderState, subtotalInvariant s →
      subtotalInvariant (List.foldl applyCollectionOp s ops) := by
  induction ops with
  | nil => intro s h; exact h
  | cons op rest ih =>
      intro s h
      exact ih _ (subtotalInvariant_applyCollectionOp s op h)

/-- C2: starting from a freshly started order, after every prefix of a
sequence of valid `add_item`/`remove_item` calls the `order_total` field
equals the sum of `price * quantity` over the current items. -/
theorem collection_subtotal_invariant (s0 : OrderState)
    (ops : List CollectionOp) (n : Nat)
    (h : validTrace (start_order s0) ops) :
    subtotalInvariant
      (List.foldl applyCollectionOp (start_order s0) (ops.take n)) := by
  have hbase : subtotalInvariant (start_order s0) := by
    unfold subtotalInvariant start_order recomputeTotal
    simp
  exact subtotalInvariant_foldl _ _ hbase

/-- C2 witness: a concrete valid trace (one add of two Cokes, then removing
the first item), checked after both calls. -/
theorem collection_subtotal_invariant_witness :
    validTrace (start_order initial_state)
      [CollectionOp.add "Coke" "small" 2 [] 2, CollectionOp.remove 1] ∧
    subtotalInvariant
      (List.foldl applyCollectionOp (start_order initial_state)
        ([CollectionOp.add "Coke" "small" 2 [] 2,
          CollectionOp.remove 1].take 2)) :=
  ⟨by decide, collection_subtotal_invariant initial_state _ 2 (by decide)⟩

/-- The exact final total of the acceptance scenario. -/
lemma scenario_final_total_eq : scenarioResult.final_total = (10.03625 : Rat) := by
  simp [scenarioResult, scenarioConfirmed, process_payment, confirm_order,
    set_order_type, finish_order_collection, add_item, start_order, initial_state]
  norm_num

/-- The scenario total rounded to cents. -/
lemma scenario_roundCents_eq : roundCents scenarioResult.final_total = 1004 := by
  rw [scenario_final_total_eq]
  rw [roundCents, round_eq]
  norm_num [Int.floor_eq_iff]

/-- C7 counterexample: the scenario final total is exactly `10.03625`
dollars, which rounds to `1004` cents, not `1003`: the claimed value
`10.03` is wrong. -/
theorem scenario_rounding_counterexample :
    scenarioResult.final_total = (10.03625 : Rat) ∧
    roundCents scenarioResult.final_total = 1004 ∧
    roundCents scenarioResult.final_total ≠ 1003 :=
  ⟨scenario_final_total_eq, scenario_roundCents_eq, by
    rw [scenario_roundCents_eq]; decide⟩

/-- C7 amended: the scenario yields `final_total = 9.25 × 1.085 = 10.03625`
exactly (10.04 when rounded to cents), sets `payment_confirmed = true`, and
leaves `current_step = payment`. -/
theorem scenario_final_total_amended :
    scenarioResult.final_total = (9.25 : Rat) * (1.085 : Rat) ∧
    roundCents scenarioResult.final_total = 1004 ∧
    scenarioResult.state.payment_confirmed = some true ∧
    scenarioResult.state.current_step = some .payment := by
  refine ⟨?_, scenario_roundCents_eq, rfl, rfl⟩
  rw [scenario_final_total_eq]; norm_num

end PizzaOrder
